import Mathlib

/-!
# Student manager front end (`src/studentfrontend/src/App.js`)

A shallow embedding of the `App` component: its seven `useState` cells, the
handlers `loadStudents`, `addStudent`, `editStudent`, `updateStudent`,
`cancelEdit`, `deleteStudent`, the derived list `filteredStudents`, and the
parts of the render function that decide which controls exist and whether they
are enabled.

An `async` handler is split where it awaits: the part that runs synchronously
up to the `await` (named after the handler), the continuation that runs when
the awaited call resolves (`..._resolved`) and the one that runs when it
rejects (`..._rejected`).  Each continuation ends with the handler's `finally`
block.
-/

namespace StudentFrontend

/-! ## Data model -/

/-- The `id` of a record as the front end sees it: a JavaScript number or string
chosen by the remote service. -/
inductive StudentId where
  | num (n : Int)
  | str (s : String)
  deriving DecidableEq, Repr

/-- One element of the array returned by `GET /students`. -/
structure Student where
  id : StudentId
  name : String
  email : String
  deriving DecidableEq, Repr

/-- The seven `useState` cells of `App` (lines 6-12); `editingId = none` is
JavaScript `null`. -/
structure State where
  students : List Student
  name : String
  email : String
  editingId : Option StudentId
  loading : Bool
  error : String
  searchTerm : String
  deriving DecidableEq, Repr

/-- The values passed to `useState` on the first render. -/
def State.initial : State :=
  { students := [], name := "", email := "", editingId := none,
    loading := false, error := "", searchTerm := "" }

/-! ## The list filter (lines 99-103) -/

/-- `Array.prototype.filter`: visit the elements in index order and append
the ones the callback accepts to the result built so far. -/
def arrayFilter {α : Type} (callback : α → Bool) : List α → List α → List α
  | [], kept => kept
  | x :: rest, kept => arrayFilter callback rest (if callback x then kept ++ [x] else kept)

/-- `String.prototype.includes` on the characters of the two strings: try the
search string at start position 0, then 1, and so on up to the end. -/
def includesFrom (search : List Char) : List Char → Bool
  | [] => search.isPrefixOf []
  | c :: rest => search.isPrefixOf (c :: rest) || includesFrom search rest

/-- `hay.includes(search)`. -/
def includes (hay search : String) : Bool :=
  includesFrom search.data hay.data

/-- The callback of line 100-102.  `toLowerCase` is the runtime's
`String.prototype.toLowerCase`. -/
def matchesSearch (toLowerCase : String → String) (searchTerm : String) (s : Student) : Bool :=
  includes (toLowerCase s.name) (toLowerCase searchTerm) ||
    includes (toLowerCase s.email) (toLowerCase searchTerm)

/-- `filteredStudents` (lines 99-103). -/
def filteredStudents (toLowerCase : String → String) (students : List Student)
    (searchTerm : String) : List Student :=
  arrayFilter (matchesSearch toLowerCase searchTerm) students []

/-- `toLowerCase` on strings of ASCII characters: the letters `A`-`Z` are
mapped to `a`-`z`, every other character is kept. -/
def asciiToLowerCase (s : String) : String :=
  ⟨s.data.map Char.toLower⟩

/-! ## Remote calls and the world the component runs in -/

/-- A call made through axios: `get` is `GET /students` (line 21), `post` is
`POST /students` with body `{ name, email }` (line 38), `put` is `PUT` to the
path built from `editingId`, with body `{ name, email }` (line 64), `delete` is
`DELETE` to the path built from `id` (line 88). -/
inductive Call where
  | get
  | post (name email : String)
  | put (editingId : Option StudentId) (name email : String)
  | delete (id : StudentId)
  deriving DecidableEq, Repr

/-- How an axios promise settles: it resolves with the response (`data` is
`res.data`, only read after a `get`), or it rejects. -/
inductive Reply where
  | resolved (data : List Student)
  | rejected
  deriving DecidableEq, Repr

/-- A call that has been issued and whose promise has not settled yet.  `reply`
is `none` until the outcome of the call is fixed, and holds the outcome from
then until it reaches the component. -/
structure Flight where
  call : Call
  reply : Option Reply
  deriving DecidableEq, Repr

/-- The component together with its environment: the state cells, the calls in
flight (oldest first), every call issued so far, and the collection held by the
remote service with the number it will give to the next created record. -/
structure World where
  ui : State
  flights : List Flight
  log : List Call
  remote : List Student
  nextId : Nat
  deriving DecidableEq, Repr

/-! ## State setters and the axios call -/

def setStudents (v : List Student) (w : World) : World :=
  { w with ui := { w.ui with students := v } }

def setName (v : String) (w : World) : World :=
  { w with ui := { w.ui with name := v } }

def setEmail (v : String) (w : World) : World :=
  { w with ui := { w.ui with email := v } }

def setEditingId (v : Option StudentId) (w : World) : World :=
  { w with ui := { w.ui with editingId := v } }

def setLoading (v : Bool) (w : World) : World :=
  { w with ui := { w.ui with loading := v } }

def setError (v : String) (w : World) : World :=
  { w with ui := { w.ui with error := v } }

def setSearchTerm (v : String) (w : World) : World :=
  { w with ui := { w.ui with searchTerm := v } }

/-- Start a call: it joins the calls in flight and is recorded in the log. -/
def issue (c : Call) (w : World) : World :=
  { w with flights := w.flights ++ [{ call := c, reply := none }], log := w.log ++ [c] }

/-! ## The handlers (lines 18-97) -/

/-- `loadStudents` up to its `await` (lines 19-21). -/
def loadStudents (w : World) : World :=
  w |> setLoading true |> issue Call.get

/-- `loadStudents` after the list call resolved (lines 22-23, 27). -/
def loadStudents_resolved (data : List Student) (w : World) : World :=
  w |> setStudents data |> setError "" |> setLoading false

/-- `loadStudents` after the list call rejected (lines 25, 27). -/
def loadStudents_rejected (w : World) : World :=
  w |> setError "Failed to load students. Please check if the server is running."
    |> setLoading false

/-- `addStudent` up to its `await` (lines 32-38); `!name` holds of a string
exactly when it is empty. -/
def addStudent (w : World) : World :=
  if w.ui.name = "" ∨ w.ui.email = "" then
    w |> setError "Please fill all fields"
  else
    w |> setLoading true |> issue (Call.post w.ui.name w.ui.email)

/-- `addStudent` after the create call resolved (lines 39-42, 46): the call to
`loadStudents` is not awaited, so the `finally` block runs as soon as
`loadStudents` has reached its own `await`. -/
def addStudent_resolved (w : World) : World :=
  w |> setName "" |> setEmail "" |> setError "" |> loadStudents |> setLoading false

/-- `addStudent` after the create call rejected (lines 44, 46). -/
def addStudent_rejected (w : World) : World :=
  w |> setError "Failed to add student" |> setLoading false

/-- `editStudent` (lines 50-55). -/
def editStudent (student : Student) (w : World) : World :=
  w |> setName student.name |> setEmail student.email |> setEditingId (some student.id)
    |> setError ""

/-- `updateStudent` up to its `await` (lines 58-64). -/
def updateStudent (w : World) : World :=
  if w.ui.name = "" ∨ w.ui.email = "" then
    w |> setError "Please fill all fields"
  else
    w |> setLoading true |> issue (Call.put w.ui.editingId w.ui.name w.ui.email)

/-- `updateStudent` after the update call resolved (lines 65-69, 73). -/
def updateStudent_resolved (w : World) : World :=
  w |> setName "" |> setEmail "" |> setEditingId none |> setError "" |> loadStudents
    |> setLoading false

/-- `updateStudent` after the update call rejected (lines 71, 73). -/
def updateStudent_rejected (w : World) : World :=
  w |> setError "Failed to update student" |> setLoading false

/-- `cancelEdit` (lines 77-82). -/
def cancelEdit (w : World) : World :=
  w |> setName "" |> setEmail "" |> setEditingId none |> setError ""

/-- `deleteStudent` up to its `await` (lines 85-88); `confirmed` is the answer
of `window.confirm`. -/
def deleteStudent (id : StudentId) (confirmed : Bool) (w : World) : World :=
  if confirmed then
    w |> setLoading true |> issue (Call.delete id)
  else
    w

/-- `deleteStudent` after the delete call resolved (lines 89-90, 94). -/
def deleteStudent_resolved (w : World) : World :=
  w |> setError "" |> loadStudents |> setLoading false

/-- `deleteStudent` after the delete call rejected (lines 92, 94). -/
def deleteStudent_rejected (w : World) : World :=
  w |> setError "Failed to delete student" |> setLoading false

/-! ## What the render function derives from the state (lines 105-264) -/

/-- JavaScript truthiness of `editingId`: `null`, the number `0` and the empty
string are falsy. -/
def truthy : Option StudentId → Bool
  | none => false
  | some (StudentId.num n) => n != 0
  | some (StudentId.str s) => s != ""

/-- The mode of the form. -/
inductive Mode where
  | create
  | edit (id : StudentId)
  deriving DecidableEq, Repr

/-- The mode the form is rendered in: the test `editingId ? ... : ...` of lines
122 and 158 picks the title and the buttons. -/
def formMode (s : State) : Mode :=
  match s.editingId with
  | some id => if truthy (some id) then Mode.edit id else Mode.create
  | none => Mode.create

/-- The title of the form card (line 122). -/
def cardTitle (s : State) : String :=
  if truthy s.editingId then "Edit Student" else "Add New Student"

/-- The `onClick` of the primary button of the form (lines 158-183):
`updateStudent` when `editingId` is truthy, `addStudent` otherwise. -/
def onSubmit (w : World) : World :=
  if truthy w.ui.editingId then updateStudent w else addStudent w

/-- The class of a table row (line 225): `editingId === s.id`. -/
def rowClassName (s : State) (row : Student) : String :=
  if s.editingId = some row.id then "editing" else ""

/-! ## The remote service -/

/-- Modelled from the spec: the remote collection service of section 6, which
is not part of the front end.  `list` leaves the collection as it is, `create`
appends a record with a fresh id, `update` replaces name and email of the
records with the given id, `delete` removes them. -/
def serviceApply (c : Call) (remote : List Student) (nextId : Nat) : List Student × Nat :=
  match c with
  | Call.get => (remote, nextId)
  | Call.post name email =>
    (remote ++ [{ id := StudentId.num nextId, name := name, email := email }], nextId + 1)
  | Call.put (some id) name email =>
    (remote.map (fun r => if r.id = id then { r with name := name, email := email } else r),
      nextId)
  | Call.put none _ _ => (remote, nextId)
  | Call.delete id => (remote.filter (fun r => r.id != id), nextId)

/-- Modelled from the spec: the success response of the service (section 6);
only the body of a list response is read by the front end. -/
def serviceData (c : Call) (remote : List Student) : List Student :=
  match c with
  | Call.get => remote
  | _ => []

/-! ## Events -/

/-- What can happen to the mounted component: the user acts on a control, the
remote service handles a call in flight (`serve`), a call in flight fails
(`fail`), or the outcome of a call reaches the component (`settle`).  The
number is the position of the call among the calls in flight. -/
inductive Event where
  | changeName (v : String)
  | changeEmail (v : String)
  | changeSearch (v : String)
  | clickAdd
  | clickUpdate
  | clickCancel
  | clickEdit (row : Student)
  | clickDelete (row : Student) (confirmed : Bool)
  | serve (k : Nat)
  | fail (k : Nat)
  | settle (k : Nat)
  deriving DecidableEq, Repr

/-- The continuation that runs when the promise of call `c` settles with `r`. -/
def continuation (c : Call) (r : Reply) (w : World) : World :=
  match c, r with
  | Call.get, Reply.resolved data => loadStudents_resolved data w
  | Call.get, Reply.rejected => loadStudents_rejected w
  | Call.post _ _, Reply.resolved _ => addStudent_resolved w
  | Call.post _ _, Reply.rejected => addStudent_rejected w
  | Call.put _ _ _, Reply.resolved _ => updateStudent_resolved w
  | Call.put _ _ _, Reply.rejected => updateStudent_rejected w
  | Call.delete _, Reply.resolved _ => deleteStudent_resolved w
  | Call.delete _, Reply.rejected => deleteStudent_rejected w

/-- One event; `none` when the control is not rendered or is disabled
(`disabled={loading}`), or when there is no such call in flight.  The name and
email inputs and every button are disabled while `loading`; the search input
never is (lines 194-199).  The rows of the table are those of
`filteredStudents` (line 224). -/
def step (toLowerCase : String → String) (w : World) : Event → Option World
  | Event.changeName v => if w.ui.loading then none else some (setName v w)
  | Event.changeEmail v => if w.ui.loading then none else some (setEmail v w)
  | Event.changeSearch v => some (setSearchTerm v w)
  | Event.clickAdd =>
    if w.ui.loading || truthy w.ui.editingId then none else some (addStudent w)
  | Event.clickUpdate =>
    if w.ui.loading || !truthy w.ui.editingId then none else some (updateStudent w)
  | Event.clickCancel =>
    if w.ui.loading || !truthy w.ui.editingId then none else some (cancelEdit w)
  | Event.clickEdit row =>
    if w.ui.loading || !(filteredStudents toLowerCase w.ui.students w.ui.searchTerm).contains row
    then none else some (editStudent row w)
  | Event.clickDelete row confirmed =>
    if w.ui.loading || !(filteredStudents toLowerCase w.ui.students w.ui.searchTerm).contains row
    then none else some (deleteStudent row.id confirmed w)
  | Event.serve k =>
    match w.flights.get? k with
    | some { call := c, reply := none } =>
      some { w with
        flights := w.flights.set k
          { call := c, reply := some (Reply.resolved (serviceData c w.remote)) },
        remote := (serviceApply c w.remote w.nextId).1,
        nextId := (serviceApply c w.remote w.nextId).2 }
    | _ => none
  | Event.fail k =>
    match w.flights.get? k with
    | some { call := c, reply := none } =>
      some { w with flights := w.flights.set k { call := c, reply := some Reply.rejected } }
    | _ => none
  | Event.settle k =>
    match w.flights.get? k with
    | some { call := c, reply := some r } =>
      some (continuation c r { w with flights := w.flights.eraseIdx k })
    | _ => none

/-- A sequence of events, from left to right; `none` as soon as one of them is
not possible. -/
def run (toLowerCase : String → String) (w : World) : List Event → Option World
  | [] => some w
  | e :: rest => (step toLowerCase w e).bind (fun w1 => run toLowerCase w1 rest)

/-- The world right after the component has mounted: the effect of lines 14-16
has called `loadStudents` on the initial state. -/
def World.mounted (remote : List Student) (nextId : Nat) : World :=
  loadStudents
    { ui := State.initial, flights := [], log := [], remote := remote, nextId := nextId }

/-- The calls in flight. -/
def World.inFlight (w : World) : List Call :=
  w.flights.map Flight.call

/-! ## Concrete records, worlds and event sequences used below -/

/-- The record of scenario A. -/
def ann : Student :=
  { id := StudentId.num 1, name := "Ann", email := "a@x.com" }

/-- A record whose id is the number 0. -/
def zed : Student :=
  { id := StudentId.num 0, name := "Zed", email := "z@x.com" }

/-- Scenario B: Create mode with name "Bo" and an empty email, nothing in flight. -/
def scenarioB : World :=
  { ui := { State.initial with name := "Bo" }, flights := [], log := [], remote := [],
    nextId := 1 }

/-- Both fields filled in, Create mode, nothing in flight, and the message of
an earlier attempt still shown. -/
def filledForm : World :=
  { ui := { State.initial with name := "Bo", email := "b@x.com", students := [ann],
                               error := "Failed to add student" },
    flights := [], log := [], remote := [ann], nextId := 2 }

/-- The initial list call resolves, the user fills in the form and clicks Add,
the create call resolves. -/
def addTrace : List Event :=
  [Event.serve 0, Event.settle 0,
   Event.changeName "Bo", Event.changeEmail "b@x.com", Event.clickAdd,
   Event.serve 0, Event.settle 0]

/-- After `addTrace`, the user fills in the form again and clicks Add. -/
def secondAddTrace : List Event :=
  addTrace ++ [Event.changeName "Cy", Event.changeEmail "c@x.com", Event.clickAdd]

/-- Two records are added one after the other, every call succeeds, and the
response to the list call chained after the first create reaches the component
after the response to the list call chained after the second one. -/
def overtakenReloadTrace : List Event :=
  [Event.serve 0, Event.settle 0,
   Event.changeName "Ann", Event.changeEmail "a@x.com", Event.clickAdd,
   Event.serve 0, Event.settle 0,
   Event.serve 0,
   Event.changeName "Bo", Event.changeEmail "b@x.com", Event.clickAdd,
   Event.serve 1, Event.settle 1,
   Event.serve 1, Event.settle 1,
   Event.settle 0]

/-- The initial list call resolves, a submit with empty fields is refused, then
the user fills in the form and clicks Add. -/
def retryAfterValidationTrace : List Event :=
  [Event.serve 0, Event.settle 0, Event.clickAdd,
   Event.changeName "Bo", Event.changeEmail "b@x.com", Event.clickAdd]

/-- The initial list call resolves and the user clicks Edit on the row of `zed`. -/
def editZedTrace : List Event :=
  [Event.serve 0, Event.settle 0, Event.clickEdit zed]

/-- After `editZedTrace`, the user clicks the primary button of the form and
the call it makes resolves. -/
def submitZedTrace : List Event :=
  editZedTrace ++ [Event.clickAdd, Event.serve 0, Event.settle 0]

/-- A second create is submitted while the list call chained after the first
one is in flight; that list call settles, the user clicks Edit on the row of
`ann`, and then the second create call resolves. -/
def editDuringCreateTrace : List Event :=
  [Event.serve 0, Event.settle 0,
   Event.changeName "Bo", Event.changeEmail "b@x.com", Event.clickAdd,
   Event.serve 0, Event.settle 0,
   Event.changeName "Cy", Event.changeEmail "c@x.com", Event.clickAdd,
   Event.serve 0, Event.settle 0,
   Event.clickEdit ann,
   Event.serve 0, Event.settle 0]

/-! ## Lemmas on the list filter -/

theorem arrayFilter_eq {α : Type} (p : α → Bool) (xs kept : List α) :
    arrayFilter p xs kept = kept ++ xs.filter p := by
  induction xs generalizing kept with
  | nil => simp [arrayFilter]
  | cons x rest ih =>
    rw [arrayFilter, ih]
    by_cases hx : p x = true <;> simp [hx, List.filter_cons]

theorem includesFrom_iff (search hay : List Char) :
    includesFrom search hay = true ↔ search <:+: hay := by
  induction hay with
  | nil => simp [includesFrom]
  | cons c rest ih =>
    rw [includesFrom, Bool.or_eq_true, ih, List.infix_cons_iff, List.isPrefixOf_iff_prefix]

theorem includes_iff (hay search : String) :
    includes hay search = true ↔ search.data <:+: hay.data :=
  includesFrom_iff search.data hay.data

theorem includes_empty (hay : String) : includes hay "" = true := by
  rw [includes_iff]
  exact List.nil_infix

theorem matchesSearch_iff (toLowerCase : String → String) (searchTerm : String) (s : Student) :
    matchesSearch toLowerCase searchTerm s = true ↔
      ((toLowerCase searchTerm).data <:+: (toLowerCase s.name).data ∨
        (toLowerCase searchTerm).data <:+: (toLowerCase s.email).data) := by
  simp only [matchesSearch, Bool.or_eq_true, includes_iff]

theorem filteredStudents_eq_filter (toLowerCase : String → String) (students : List Student)
    (searchTerm : String) :
    filteredStudents toLowerCase students searchTerm
      = students.filter (matchesSearch toLowerCase searchTerm) := by
  simp [filteredStudents, arrayFilter_eq]

/-! ## The list filter -/

/-- C1: `filteredStudents` is the list of the records of the store, in store
order, whose lower-cased name or lower-cased email contains the lower-cased
search term as a substring; it is a subsequence of the store, filtering it again
with the same term changes nothing, and for the empty term (which lower-cases
to the empty string) it is the whole store.  Scenario A: in the store holding
only Ann the term "ann" selects Ann and the term "zzz" selects nothing. -/
theorem filteredStudents_spec (toLowerCase : String → String) (students : List Student)
    (searchTerm : String) :
    filteredStudents toLowerCase students searchTerm
        = students.filter (fun s => decide
            ((toLowerCase searchTerm).data <:+: (toLowerCase s.name).data ∨
              (toLowerCase searchTerm).data <:+: (toLowerCase s.email).data))
      ∧ (filteredStudents toLowerCase students searchTerm).Sublist students
      ∧ filteredStudents toLowerCase (filteredStudents toLowerCase students searchTerm) searchTerm
          = filteredStudents toLowerCase students searchTerm
      ∧ (toLowerCase "" = "" → filteredStudents toLowerCase students "" = students)
      ∧ filteredStudents asciiToLowerCase [ann] "ann" = [ann]
      ∧ filteredStudents asciiToLowerCase [ann] "zzz" = [] := by
  refine ⟨?_, ?_, ?_, ?_, by decide, by decide⟩
  · rw [filteredStudents_eq_filter]
    apply List.filter_congr
    intro s _
    by_cases h : matchesSearch toLowerCase searchTerm s = true
    · rw [h]
      exact (decide_eq_true ((matchesSearch_iff toLowerCase searchTerm s).1 h)).symm
    · rw [Bool.not_eq_true] at h
      rw [h]
      refine (decide_eq_false ?_).symm
      intro hc
      have := (matchesSearch_iff toLowerCase searchTerm s).2 hc
      simp [h] at this
  · rw [filteredStudents_eq_filter]
    exact List.filter_sublist students
  · simp only [filteredStudents_eq_filter, List.filter_filter, Bool.and_self]
  · intro h
    rw [filteredStudents_eq_filter, List.filter_eq_self]
    intro s _
    simp [matchesSearch, h, includes_empty]

/-- Witness of C1 at the ASCII lower-casing and the store of scenario A. -/
theorem filteredStudents_spec_witness :
    asciiToLowerCase "" = "" ∧ filteredStudents asciiToLowerCase [ann] "" = [ann] :=
  ⟨by decide, (filteredStudents_spec asciiToLowerCase [ann] "").2.2.2.1 (by decide)⟩

/-! ## Validation (lines 32-35, 58-61) -/

/-- C2: when name or email is empty, `addStudent`, `updateStudent` and the
submit button of the form (whichever of the two it calls) only set `error` to
"Please fill all fields": the store, the form fields, `editingId`, `loading`
and `searchTerm` are as before, and no call has been issued (the calls in
flight and the log of issued calls are as before). -/
theorem submit_with_empty_field (w : World) (h : w.ui.name = "" ∨ w.ui.email = "") :
    addStudent w = { w with ui := { w.ui with error := "Please fill all fields" } }
      ∧ updateStudent w = { w with ui := { w.ui with error := "Please fill all fields" } }
      ∧ onSubmit w = { w with ui := { w.ui with error := "Please fill all fields" } }
      ∧ (onSubmit w).log = w.log ∧ (onSubmit w).flights = w.flights := by
  have ha : addStudent w = { w with ui := { w.ui with error := "Please fill all fields" } } := by
    simp [addStudent, h, setError]
  have hu : updateStudent w
      = { w with ui := { w.ui with error := "Please fill all fields" } } := by
    simp [updateStudent, h, setError]
  have hs : onSubmit w = { w with ui := { w.ui with error := "Please fill all fields" } } := by
    unfold onSubmit
    split
    · exact hu
    · exact ha
  exact ⟨ha, hu, hs, by rw [hs], by rw [hs]⟩

/-- Witness of C2 at scenario B: Create mode, name "Bo", empty email. -/
theorem submit_with_empty_field_witness :
    (scenarioB.ui.name = "" ∨ scenarioB.ui.email = "")
      ∧ (onSubmit scenarioB).ui.error = "Please fill all fields"
      ∧ (onSubmit scenarioB).log = [] :=
  ⟨by decide,
    by rw [(submit_with_empty_field scenarioB (by decide)).2.2.1],
    by rw [(submit_with_empty_field scenarioB (by decide)).2.2.2.1]; rfl⟩

/-! ## Failure of a mutation (lines 43-46, 70-73, 91-94) -/

/-- C6: when the create, update or delete call of an action rejects, the
state differs from the state before the action only in `loading`, which is
false, and `error`, which is the message of the action; the only call the
action has issued is the mutation itself, so no list call was made.  For
`addStudent` and `updateStudent` the two fields are non-empty, so that the call
is made at all; `deleteStudent` has been confirmed. -/
theorem mutation_failure (w : World) (id : StudentId) :
    (w.ui.name ≠ "" → w.ui.email ≠ "" →
        ((addStudent_rejected (addStudent w)).ui
            = { w.ui with loading := false, error := "Failed to add student" }
          ∧ (addStudent_rejected (addStudent w)).log
            = w.log ++ [Call.post w.ui.name w.ui.email])
        ∧ ((updateStudent_rejected (updateStudent w)).ui
            = { w.ui with loading := false, error := "Failed to update student" }
          ∧ (updateStudent_rejected (updateStudent w)).log
            = w.log ++ [Call.put w.ui.editingId w.ui.name w.ui.email]))
      ∧ ((deleteStudent_rejected (deleteStudent id true w)).ui
          = { w.ui with loading := false, error := "Failed to delete student" }
        ∧ (deleteStudent_rejected (deleteStudent id true w)).log
          = w.log ++ [Call.delete id]) := by
  refine ⟨fun hn he => ?_, ?_⟩
  · simp [addStudent, addStudent_rejected, updateStudent, updateStudent_rejected, hn, he,
      setError, setLoading, issue]
  · simp [deleteStudent, deleteStudent_rejected, setError, setLoading, issue]

/-- Witness of C6: from a state with the form filled in, a failed create, and
(scenario E) a confirmed delete of record 1 whose call fails. -/
theorem mutation_failure_witness :
    (filledForm.ui.name ≠ "" ∧ filledForm.ui.email ≠ "")
      ∧ (addStudent_rejected (addStudent filledForm)).ui
          = { filledForm.ui with loading := false, error := "Failed to add student" }
      ∧ (deleteStudent_rejected (deleteStudent (StudentId.num 1) true filledForm)).ui
          = { filledForm.ui with loading := false, error := "Failed to delete student" }
      ∧ (deleteStudent_rejected (deleteStudent (StudentId.num 1) true filledForm)).log
          = [Call.delete (StudentId.num 1)] :=
  ⟨by decide,
    ((mutation_failure filledForm (StudentId.num 1)).1 (by decide) (by decide)).1.1,
    (mutation_failure filledForm (StudentId.num 1)).2.1,
    (mutation_failure filledForm (StudentId.num 1)).2.2⟩

/-! ## Reload (lines 18-29) -/

/-- C7: after `loadStudents`, if the list call resolves with payload `P` the
store is `P` and `error` is empty; if it rejects the store is the prior store
and `error` is the load-failure message.  In both cases `name`, `email`,
`editingId` and `searchTerm` are as before and `loading` is false.  The same
holds of the continuations from whatever state `v` they start in. -/
theorem loadStudents_outcome (w v : World) (P : List Student) :
    (loadStudents_resolved P (loadStudents w)).ui
        = { w.ui with students := P, error := "", loading := false }
      ∧ (loadStudents_rejected (loadStudents w)).ui
        = { w.ui with
            error := "Failed to load students. Please check if the server is running.",
            loading := false }
      ∧ (loadStudents w).log = w.log ++ [Call.get]
      ∧ (loadStudents_resolved P v).ui
        = { v.ui with students := P, error := "", loading := false }
      ∧ (loadStudents_rejected v).ui
        = { v.ui with
            error := "Failed to load students. Please check if the server is running.",
            loading := false } := by
  simp [loadStudents, loadStudents_resolved, loadStudents_rejected, setStudents, setError,
    setLoading, issue]

/-! ## When `error` is cleared -/

/-- C8 as stated fails: after a refused submit the user fills in the form
and clicks Add; the create call is in flight, `loading` is true, and `error`
still holds the validation message of the earlier attempt. -/
theorem error_kept_while_call_in_flight :
    (run asciiToLowerCase (World.mounted [] 1) retryAfterValidationTrace).map
        (fun w => (w.inFlight, w.ui.loading, w.ui.error))
      = some ([Call.post "Bo" "b@x.com"], true, "Please fill all fields") := by
  decide

/-- C8 amended: issuing the call of an attempt sets `loading` and leaves
`error` as it was (for `addStudent` and `updateStudent` with both fields
non-empty, so that the call is made); `error` is cleared when the call
resolves, and is set to the message of the action when the call rejects. -/
theorem error_cleared_on_success (w : World) (id : StudentId) (P : List Student) :
    ((loadStudents w).ui.error = w.ui.error ∧ (loadStudents w).ui.loading = true
        ∧ (loadStudents w).log = w.log ++ [Call.get])
      ∧ (w.ui.name ≠ "" → w.ui.email ≠ "" →
          ((addStudent w).ui.error = w.ui.error ∧ (addStudent w).ui.loading = true
            ∧ (addStudent w).log = w.log ++ [Call.post w.ui.name w.ui.email])
          ∧ ((updateStudent w).ui.error = w.ui.error ∧ (updateStudent w).ui.loading = true
            ∧ (updateStudent w).log
              = w.log ++ [Call.put w.ui.editingId w.ui.name w.ui.email]))
      ∧ ((deleteStudent id true w).ui.error = w.ui.error
        ∧ (deleteStudent id true w).ui.loading = true
        ∧ (deleteStudent id true w).log = w.log ++ [Call.delete id])
      ∧ (loadStudents_resolved P w).ui.error = ""
      ∧ (addStudent_resolved w).ui.error = ""
      ∧ (updateStudent_resolved w).ui.error = ""
      ∧ (deleteStudent_resolved w).ui.error = ""
      ∧ (loadStudents_rejected w).ui.error
        = "Failed to load students. Please check if the server is running."
      ∧ (addStudent_rejected w).ui.error = "Failed to add student"
      ∧ (updateStudent_rejected w).ui.error = "Failed to update student"
      ∧ (deleteStudent_rejected w).ui.error = "Failed to delete student" := by
  refine ⟨?_, fun hn he => ?_, ?_⟩
  · simp [loadStudents, setLoading, issue]
  · simp [addStudent, updateStudent, hn, he, setLoading, issue]
  · simp [loadStudents, loadStudents_resolved, loadStudents_rejected,
      addStudent_resolved, addStudent_rejected, updateStudent_resolved,
      updateStudent_rejected, deleteStudent, deleteStudent_resolved, deleteStudent_rejected,
      setStudents, setName, setEmail, setEditingId, setError, setLoading, issue]

/-- Witness of the amended C8: with the form filled in and the message of an
earlier attempt shown, the message is still there once `addStudent` has
issued its call, and it is gone once the call has resolved. -/
theorem error_cleared_on_success_witness :
    (filledForm.ui.name ≠ "" ∧ filledForm.ui.email ≠ "")
      ∧ (addStudent filledForm).ui.error = "Failed to add student"
      ∧ (addStudent_resolved (addStudent filledForm)).ui.error = "" :=
  ⟨by decide,
    ((error_cleared_on_success filledForm (StudentId.num 1) []).2.1
      (by decide) (by decide)).1.1,
    (error_cleared_on_success (addStudent filledForm) (StudentId.num 1) []).2.2.2.2.1⟩

/-! ## The reload chained after a mutation is not awaited -/

/-- C4 at the failing input: after a create call has resolved, the list call
chained after it is in flight and `loading` is already false. -/
theorem loading_false_while_reload_in_flight :
    (run asciiToLowerCase (World.mounted [] 1) addTrace).map
        (fun w => (w.log, w.inFlight, w.ui.loading))
      = some ([Call.get, Call.post "Bo" "b@x.com", Call.get], [Call.get], false) := by
  decide

/-- C5 at the failing input: while the list call chained after the first
create is still in flight the Add button is enabled, and a second create call
is issued; two calls are in flight together. -/
theorem second_mutation_while_reload_in_flight :
    (run asciiToLowerCase (World.mounted [] 1) secondAddTrace).map World.inFlight
      = some [Call.get, Call.post "Cy" "c@x.com"] := by
  decide

/-- C3 at the failing input: two creates, every call succeeds, and the two
list responses reach the component in the opposite order.  When every call
has settled the store holds only the first record while the remote collection
holds both. -/
theorem store_stale_after_all_calls_settled :
    (run asciiToLowerCase (World.mounted [] 1) overtakenReloadTrace).map
        (fun w => (w.inFlight, w.ui.students, w.remote))
      = some ([], [{ id := StudentId.num 1, name := "Ann", email := "a@x.com" }],
          [{ id := StudentId.num 1, name := "Ann", email := "a@x.com" },
           { id := StudentId.num 2, name := "Bo", email := "b@x.com" }]) := by
  decide

/-! ## The mode test and an id that is falsy -/

/-- C9 at the failing input: after Edit is clicked on the row of a record
whose id is 0, the fields hold its name and email and `editingId` is 0, the row
is marked as being edited, but the form is rendered in Create mode: its title
is "Add New Student" and its button calls `addStudent`. -/
theorem editStudent_falsy_id_reports_create :
    (run asciiToLowerCase (World.mounted [zed] 1) editZedTrace).map
          (fun w => (w.ui.name, w.ui.email, w.ui.editingId, rowClassName w.ui zed))
        = some ("Zed", "z@x.com", some (StudentId.num 0), "editing")
      ∧ (run asciiToLowerCase (World.mounted [zed] 1) editZedTrace).map
          (fun w => (formMode w.ui, cardTitle w.ui, decide (onSubmit w = addStudent w)))
        = some (Mode.create, "Add New Student", true) := by
  decide

/-- C10 at the failing inputs.  First: with `editingId` equal to 0 the submit
button calls `addStudent`; once its create call has resolved the fields are empty
and a list call has been issued, but `editingId` is still 0, not `null`.
Second: a create is submitted from Create mode while an earlier reload is in
flight; that reload settles and clears `loading`, Edit is clicked on a row, and
when the create call resolves the fields are emptied while the form stays in
Edit mode. -/
theorem submit_success_not_back_in_create :
    (run asciiToLowerCase (World.mounted [zed] 1) submitZedTrace).map
          (fun w => (w.ui.name, w.ui.email, w.ui.editingId, w.inFlight))
        = some ("", "", some (StudentId.num 0), [Call.get])
      ∧ (run asciiToLowerCase (World.mounted [ann] 2) editDuringCreateTrace).map
          (fun w => (w.ui.name, w.ui.email, w.ui.editingId, formMode w.ui))
        = some ("", "", some (StudentId.num 1), Mode.edit (StudentId.num 1)) := by
  decide

end StudentFrontend
